import Mathlib

/-!
Verification of the RAW-file EXIF/metadata decoder.

The decoder consists of two Python modules: `snappy_raw_rip.py` (date-only
extraction used by the photo-import workflow) and
`Project Glass Canon/snappy_cr3_exif_reader_dev.py` (full metadata
extraction for CR3 files).  This file shallowly embeds the byte-level
decoding functions of both modules and proves properties about them.

Files are modelled as lists of bytes (`ByteFile`); the Python file handle
is modelled by explicit positions.  `f.read(n)` at position `p` returns
`readBytes file p n` and advances the position by the number of bytes
actually read.  `struct.unpack` on a short buffer raises `struct.error`;
this is modelled by the `Option`-valued readers (`u16le`, `u32be`, ...)
returning `none`.  Python's `try/except` blocks are modelled by turning
the exceptional outcome into the value the handler returns.
-/

/-- A file's contents: one `Nat` (0..255) per byte. -/
abbrev ByteFile := List Nat

/-- Bytes returned by `f.read(n)` when the handle stands at `pos`. -/
def readBytes (file : ByteFile) (pos n : Nat) : List Nat :=
  (file.drop pos).take n

/-- `struct.unpack('<H', b)`: requires exactly two bytes. -/
def u16le (b : List Nat) : Option Nat :=
  match b with
  | [a, c] => some (a + 256 * c)
  | _ => none

/-- `struct.unpack('>H', b)`. -/
def u16be (b : List Nat) : Option Nat :=
  match b with
  | [a, c] => some (256 * a + c)
  | _ => none

/-- `struct.unpack('<I', b)`: requires exactly four bytes. -/
def u32le (b : List Nat) : Option Nat :=
  match b with
  | [a, c, d, e] => some (a + 256 * c + 65536 * d + 16777216 * e)
  | _ => none

/-- `struct.unpack('>I', b)`. -/
def u32be (b : List Nat) : Option Nat :=
  match b with
  | [a, c, d, e] => some (16777216 * a + 65536 * c + 256 * d + e)
  | _ => none

/-- `struct.unpack('>Q', b)`: requires exactly eight bytes. -/
def u64be (b : List Nat) : Option Nat :=
  match b with
  | [a, c, d, e, f, g, h, i] =>
      some (((((((a * 256 + c) * 256 + d) * 256 + e) * 256 + f) * 256 + g) * 256 + h) * 256 + i)
  | _ => none

/-- `struct.unpack('<i', b)`: signed 32-bit little-endian. -/
def i32le (b : List Nat) : Option Int :=
  (u32le b).map (fun n => if n < 2147483648 then (n : Int) else (n : Int) - 4294967296)

/-- Byte order of a tag directory (`'<'` or `'>'` in the source). -/
inductive ByteOrder where
  | le
  | be
deriving DecidableEq

/-- Unpack a 2-byte field in the given byte order. -/
def u16 (bo : ByteOrder) (b : List Nat) : Option Nat :=
  match bo with
  | .le => u16le b
  | .be => u16be b

/-- Unpack a 4-byte field in the given byte order. -/
def u32 (bo : ByteOrder) (b : List Nat) : Option Nat :=
  match bo with
  | .le => u32le b
  | .be => u32be b

/-- Value of a 2-byte slice known to be exactly two bytes
(`struct.unpack` on a slice of a length-checked buffer). -/
def u16v (bo : ByteOrder) (b : List Nat) : Nat :=
  match bo with
  | .le => b.getD 0 0 + 256 * b.getD 1 0
  | .be => 256 * b.getD 0 0 + b.getD 1 0

/-- Value of a 4-byte slice known to be exactly four bytes. -/
def u32v (bo : ByteOrder) (b : List Nat) : Nat :=
  match bo with
  | .le => b.getD 0 0 + 256 * b.getD 1 0 + 65536 * b.getD 2 0 + 16777216 * b.getD 3 0
  | .be => 16777216 * b.getD 0 0 + 65536 * b.getD 1 0 + 256 * b.getD 2 0 + b.getD 3 0

/-- `bytes.split(b'\x00')[0]`: the bytes before the first NUL. -/
def splitNul (b : List Nat) : List Nat :=
  b.takeWhile (fun x => x ≠ 0)

/-- One step of CPython's UTF-8 decoder with `errors='ignore'`:
returns the decoded code point together with the number of bytes
consumed, or `none` (consume the maximal valid prefix of the sequence and
drop it) for an invalid sequence.  `k` bytes of lookahead are inspected. -/
def utf8Cont (b : Nat) : Bool := 128 ≤ b ∧ b ≤ 191

/-- Decode one UTF-8 sequence starting at byte `b`, with the following
bytes in `rest`: returns the code point (or `none` for an invalid
sequence: CPython's `errors='ignore'` drops the start byte and the valid
continuation bytes seen before the first offending byte) and the number
of bytes of `rest` consumed in addition to `b`. -/
def utf8Step (b : Nat) (rest : List Nat) : Option Nat × Nat :=
  if b < 128 then (some b, 0)
  else if 194 ≤ b ∧ b ≤ 223 then
    match rest with
    | c :: _ =>
      if utf8Cont c then (some ((b - 192) * 64 + (c - 128)), 1) else (none, 0)
    | [] => (none, 0)
  else if 224 ≤ b ∧ b ≤ 239 then
    match rest with
    | c :: rest2 =>
      let okFirst :=
        if b = 224 then 160 ≤ c ∧ c ≤ 191
        else if b = 237 then 128 ≤ c ∧ c ≤ 159
        else utf8Cont c
      if okFirst then
        match rest2 with
        | d :: _ =>
          if utf8Cont d then (some ((b - 224) * 4096 + (c - 128) * 64 + (d - 128)), 2)
          else (none, 1)
        | [] => (none, 1)
      else (none, 0)
    | [] => (none, 0)
  else if 240 ≤ b ∧ b ≤ 244 then
    match rest with
    | c :: rest2 =>
      let okFirst :=
        if b = 240 then 144 ≤ c ∧ c ≤ 191
        else if b = 244 then 128 ≤ c ∧ c ≤ 143
        else utf8Cont c
      if okFirst then
        match rest2 with
        | d :: rest3 =>
          if utf8Cont d then
            match rest3 with
            | e :: _ =>
              if utf8Cont e then
                (some ((b - 240) * 262144 + (c - 128) * 4096 + (d - 128) * 64 + (e - 128)), 3)
              else (none, 2)
            | [] => (none, 2)
          else (none, 1)
        | [] => (none, 1)
      else (none, 0)
    | [] => (none, 0)
  else (none, 0)

/-- Decoding loop: each step consumes at least the leading byte, so a
fuel of the input length suffices. -/
def utf8DecodeGo : Nat → List Nat → List Nat
  | 0, _ => []
  | _, [] => []
  | f + 1, b :: rest =>
    match utf8Step b rest with
    | (some cp, k) => cp :: utf8DecodeGo f (rest.drop k)
    | (none, k) => utf8DecodeGo f (rest.drop k)

/-- `bytes.decode('utf-8', errors='ignore')`: the decoded code points. -/
def decodeUtf8Ignore (s : List Nat) : List Nat :=
  utf8DecodeGo s.length s

/-- Code points Python's `str.strip()` removes (`str.isspace`). -/
def pyIsSpace (c : Nat) : Bool :=
  c ∈ [9, 10, 11, 12, 13, 28, 29, 30, 31, 32, 133, 160, 5760,
       8192, 8193, 8194, 8195, 8196, 8197, 8198, 8199, 8200, 8201, 8202,
       8232, 8233, 8239, 8287, 12288]

/-- `s.strip()` on a decoded string (list of code points). -/
def pyStrip (s : List Nat) : List Nat :=
  ((s.dropWhile pyIsSpace).reverse.dropWhile pyIsSpace).reverse

/-- A calendar date, the result of `datetime.date`. -/
structure Date where
  year : Nat
  month : Nat
  day : Nat
deriving DecidableEq

/-- Days in a month of the proleptic Gregorian calendar
(as validated by `datetime`'s constructor). -/
def daysInMonth (y m : Nat) : Nat :=
  if m = 2 then
    if y % 4 = 0 ∧ (y % 100 ≠ 0 ∨ y % 400 = 0) then 29 else 28
  else if m ∈ [4, 6, 9, 11] then 30
  else 31

/-- Is `c` an ASCII digit code point. -/
def isDigit (c : Nat) : Bool := 48 ≤ c ∧ c ≤ 57

/-- Digit value. -/
def digitVal (c : Nat) : Nat := c - 48

/-- Match one literal code point. -/
def expectChar (c : Nat) : List Nat → Option (List Nat)
  | x :: rest => if x = c then some rest else none
  | _ => none

/-- Match exactly four digits (CPython `_strptime`'s `%Y` pattern). -/
def parseYear4 : List Nat → Option (Nat × List Nat)
  | a :: b :: c :: d :: rest =>
    if isDigit a ∧ isDigit b ∧ isDigit c ∧ isDigit d then
      some (digitVal a * 1000 + digitVal b * 100 + digitVal c * 10 + digitVal d, rest)
    else none
  | _ => none

/-- Match two digits whose value satisfies `ok2` (regex alternatives such
as `1[0-2]|0[1-9]` for `%m`). -/
def parseTwoDigits (ok2 : Nat → Bool) : List Nat → Option (Nat × List Nat)
  | a :: b :: rest =>
    if isDigit a ∧ isDigit b ∧ ok2 (digitVal a * 10 + digitVal b) then
      some (digitVal a * 10 + digitVal b, rest)
    else none
  | _ => none

/-- Match a single digit whose value satisfies `ok1`. -/
def parseOneDigit (ok1 : Nat → Bool) : List Nat → Option (Nat × List Nat)
  | a :: rest => if isDigit a ∧ ok1 (digitVal a) then some (digitVal a, rest) else none
  | _ => none

/-- A two-digit-or-one-digit field with regex-style backtracking: try the
two-digit alternatives first, and on failure of the rest of the pattern
retry with the one-digit alternative. -/
def parseField (ok2 ok1 : Nat → Bool) (s : List Nat) (k : Nat → List Nat → Option Date) :
    Option Date :=
  (match parseTwoDigits ok2 s with
   | some (v, rest) => k v rest
   | none => none) <|>
  (match parseOneDigit ok1 s with
   | some (v, rest) => k v rest
   | none => none)

/-- `datetime.strptime(s, "%Y:%m:%d %H:%M:%S").date()` on an
already-stripped string, modelled after CPython `_strptime`'s regular
expressions followed by the `datetime` constructor's range checks. -/
def strptimeDate (s : List Nat) : Option Date :=
  match parseYear4 s with
  | none => none
  | some (y, r1) =>
    match expectChar 58 r1 with
    | none => none
    | some r2 =>
      parseField (fun v => 1 ≤ v ∧ v ≤ 12) (fun v => 1 ≤ v) r2 (fun m r3 =>
        match expectChar 58 r3 with
        | none => none
        | some r4 =>
          parseField (fun v => 1 ≤ v ∧ v ≤ 31) (fun v => 1 ≤ v) r4 (fun d r5 =>
            match expectChar 32 r5 with
            | none => none
            | some r6 =>
              parseField (fun v => v ≤ 23) (fun _ => true) r6 (fun _hh r7 =>
                match expectChar 58 r7 with
                | none => none
                | some r8 =>
                  parseField (fun v => v ≤ 59) (fun _ => true) r8 (fun _mm r9 =>
                    match expectChar 58 r9 with
                    | none => none
                    | some r10 =>
                      parseField (fun v => v ≤ 61) (fun _ => true) r10 (fun ss r11 =>
                        if r11 = [] then
                          if 1 ≤ y ∧ d ≤ daysInMonth y m ∧ ss ≤ 59 then
                            some ⟨y, m, d⟩
                          else none
                        else none)))))

/-- `_parse_date_string` from `snappy_raw_rip.py`: strip the string, parse
it in the exact `YYYY:MM:DD HH:MM:SS` format, return `None` on any
`ValueError`. -/
def parse_date_string (s : List Nat) : Option Date :=
  strptimeDate (pyStrip s)

/-- TIFF signature `b'\x49\x49\x2A\x00'` (little-endian, Intel). -/
def tiffSigLE : List Nat := [73, 73, 42, 0]

/-- TIFF signature `b'\x4D\x4D\x00\x2A'` (big-endian, Motorola). -/
def tiffSigBE : List Nat := [77, 77, 0, 42]

/-- The Canon CMT1 UUID, `85c0b687820f11e08111f4ce462b6a48`, as raw bytes
(the source compares `binascii.hexlify` output, which is equivalent). -/
def cmt1Uuid : List Nat :=
  [133, 192, 182, 135, 130, 15, 17, 224, 129, 17, 244, 206, 70, 43, 106, 72]

/-- A decoded tag value as produced by `format_tag_value`:
Python strings, ints, lists of ints, floats (modelled as exact
rationals), or the `"<parse error: ...>"` placeholder string produced by
the handler of the function's `try/except`. -/
inductive TagValue where
  | str (s : List Nat)
  | int (i : Int)
  | ints (l : List Int)
  | rat (q : Rat)
  | err
deriving DecidableEq

/-- The loop `[struct.unpack('<H', file_handle.read(2))[0] for _ in range(count)]`:
reads `count` 2-byte values starting at `p`; on a short read the
comprehension raises `struct.error`, leaving the cursor where the failed
read put it.  Returns the values (or `none` at failure) and the final
cursor position. -/
def read_shorts (file : ByteFile) : Nat → Nat → Option (List Nat) × Nat
  | p, 0 => (some [], p)
  | p, k + 1 =>
    let b := readBytes file p 2
    let p2 := p + b.length
    match u16le b with
    | none => (none, p2)
    | some v =>
      match read_shorts file p2 k with
      | (some vs, p3) => (some (v :: vs), p3)
      | (none, p3) => (none, p3)

/-- The two consecutive 4-byte reads of a RATIONAL value: returns the
pair (or `none` when a read comes up short, raising `struct.error`) and
the cursor position after the reads. -/
def read_u32_pair (file : ByteFile) (start : Nat) : Option (Nat × Nat) × Nat :=
  let b1 := readBytes file start 4
  let p1 := start + b1.length
  match u32le b1 with
  | none => (none, p1)
  | some num =>
    let b2 := readBytes file p1 4
    let p2 := p1 + b2.length
    match u32le b2 with
    | none => (none, p2)
    | some den => (some (num, den), p2)

/-- The two consecutive signed 4-byte reads of an SRATIONAL value. -/
def read_i32_pair (file : ByteFile) (start : Nat) : Option (Int × Int) × Nat :=
  let b1 := readBytes file start 4
  let p1 := start + b1.length
  match i32le b1 with
  | none => (none, p1)
  | some num =>
    let b2 := readBytes file p1 4
    let p2 := p1 + b2.length
    match i32le b2 with
    | none => (none, p2)
    | some den => (some (num, den), p2)

/-- `format_tag_value(tag_type, count, value_data, file_handle, data_offset)`
from `snappy_cr3_exif_reader_dev.py`.  `pos` is the cursor position of
`file_handle` at entry; the result carries the decoded value and the
cursor position at exit.  All multi-byte reads are little-endian, exactly
as in the source.  An exception caught by the function's `except` clause
yields `TagValue.err` with the cursor wherever the failing operation left
it. -/
def format_tag_value (tagType cnt : Nat) (valueData : List Nat) (file : ByteFile)
    (dataOffset pos : Nat) : TagValue × Nat :=
  if tagType = 2 then
    if cnt ≤ 4 then (.str (decodeUtf8Ignore (splitNul valueData)), pos)
    else
      match u32le valueData with
      | none => (.err, pos)
      | some off =>
        (.str (decodeUtf8Ignore (splitNul (readBytes file (dataOffset + off) cnt))), pos)
  else if tagType = 3 then
    if cnt = 1 then
      match u16le (valueData.take 2) with
      | none => (.err, pos)
      | some v => (.int v, pos)
    else
      match u32le valueData with
      | none => (.err, pos)
      | some off =>
        match read_shorts file (dataOffset + off) cnt with
        | (none, pf) => (.err, pf)
        | (some vs, _) =>
          if vs.length > 1 then (.ints (vs.map Int.ofNat), pos)
          else
            match vs with
            | [v] => (.int v, pos)
            | _ => (.err, pos)
  else if tagType = 4 then
    match u32le valueData with
    | none => (.err, pos)
    | some v => (.int v, pos)
  else if tagType = 5 then
    match u32le valueData with
    | none => (.err, pos)
    | some off =>
      match read_u32_pair file (dataOffset + off) with
      | (none, pf) => (.err, pf)
      | (some (num, den), _) =>
        if den = 0 then (.int 0, pos)
        else (.rat ((num : Rat) / (den : Rat)), pos)
  else if tagType = 10 then
    match u32le valueData with
    | none => (.err, pos)
    | some off =>
      match read_i32_pair file (dataOffset + off) with
      | (none, pf) => (.err, pf)
      | (some (num, den), _) =>
        if den = 0 then (.int 0, pos)
        else (.rat ((num : Rat) / (den : Rat)), pos)
  else
    match u32le valueData with
    | none => (.err, pos)
    | some v => (.int v, pos)

/-- The entry loop of `_find_datetime_in_ifd` from `snappy_raw_rip.py`:
reads 12-byte entries starting at `p`, returning the `DateTimeOriginal`
text when tag 36867 is found and following the EXIF-IFD pointer
(tag 34665) through `child`.  An empty result from the child is falsy in
Python and the loop continues. -/
def ifd_entry_loop (file : ByteFile) (tiffBase : Nat) (bo : ByteOrder)
    (child : Nat → Option (List Nat)) : Nat → Nat → Option (List Nat)
  | _, 0 => none
  | p, m + 1 =>
    let entry := readBytes file p 12
    if entry.length < 12 then none
    else
      let tagId := u16v bo (entry.take 2)
      let cnt := u32v bo ((entry.drop 4).take 4)
      let valueData := (entry.drop 8).take 4
      if tagId = 36867 then
        if cnt ≤ 4 then some (decodeUtf8Ignore (splitNul valueData))
        else
          let off := u32v bo valueData
          some (decodeUtf8Ignore (splitNul (readBytes file (tiffBase + off) cnt)))
      else if tagId = 34665 then
        let off := u32v bo valueData
        match child off with
        | some s => if s = [] then ifd_entry_loop file tiffBase bo child (p + 12) m else some s
        | none => ifd_entry_loop file tiffBase bo child (p + 12) m
      else ifd_entry_loop file tiffBase bo child (p + 12) m

/-- One invocation of `_find_datetime_in_ifd`'s body: read the 2-byte
entry count at `tiff_base + ifd_offset` (a short read raises and the
handler returns `None`), apply the 200-entry sanity ceiling, then run the
entry loop.  `child` resolves recursive calls on EXIF-IFD pointers. -/
def ifd_step (file : ByteFile) (tiffBase : Nat) (bo : ByteOrder)
    (child : Nat → Option (List Nat)) (ifdOffset : Nat) : Option (List Nat) :=
  match u16 bo (readBytes file (tiffBase + ifdOffset) 2) with
  | none => none
  | some n =>
    if n > 200 then none
    else ifd_entry_loop file tiffBase bo child (tiffBase + ifdOffset + 2) n

/-- `_find_datetime_in_ifd(f, ifd_offset, tiff_base, byte_order)`:
the recursion on the EXIF-IFD pointer is unbounded in the source and
terminates only through the Python interpreter's recursion limit, whose
`RecursionError` is swallowed by the `except` clause; the limit is
modelled by the `fuel` argument, exhaustion returning `None`. -/
def find_datetime_in_ifd (file : ByteFile) (tiffBase : Nat) (bo : ByteOrder) :
    Nat → Nat → Option (List Nat)
  | 0, _ => none
  | fuel + 1, ifdOffset =>
    ifd_step file tiffBase bo (find_datetime_in_ifd file tiffBase bo fuel) ifdOffset

/-- The CPython default recursion limit, standing in for the depth at
which `RecursionError` interrupts `_find_datetime_in_ifd`'s recursion. -/
def REC_LIMIT : Nat := 1000

/-- The part of `_extract_date_from_tiff_raw` that locates the
`DateTimeOriginal` text: read the 8-byte header, check the TIFF
signature, read the IFD0 offset, apply the `8 ≤ offset ≤ 65536` sanity
bound, then search the directory tree.  Returns the located text
(`date_str`), or `None` when any step fails. -/
def tiff_raw_locate (file : ByteFile) : Option (List Nat) :=
  let header := readBytes file 0 8
  if header.length < 8 then none
  else if header.take 4 = tiffSigLE then
    let ifdOffset := u32v .le ((header.drop 4).take 4)
    if ifdOffset < 8 ∨ ifdOffset > 65536 then none
    else find_datetime_in_ifd file 0 .le REC_LIMIT ifdOffset
  else if header.take 4 = tiffSigBE then
    let ifdOffset := u32v .be ((header.drop 4).take 4)
    if ifdOffset < 8 ∨ ifdOffset > 65536 then none
    else find_datetime_in_ifd file 0 .be REC_LIMIT ifdOffset
  else none

/-- `_extract_date_from_tiff_raw(file_path)`:
`return _parse_date_string(date_str) if date_str else None`. -/
def extract_date_from_tiff_raw (file : ByteFile) : Option Date :=
  match tiff_raw_locate file with
  | none => none
  | some s => if s = [] then none else parse_date_string s

/-- `b'FUJIFILM'`. -/
def fujifilmSig : List Nat := [70, 85, 74, 73, 70, 73, 76, 77]

/-- `_extract_date_from_raf(file_path)` from `snappy_raw_rip.py`:
check the FUJIFILM header, read the EXIF segment offset at byte 84
(bounded by `0 < offset ≤ 10000000`), detect the embedded JPEG
`FFD8 FFE1` marker (TIFF data 12 bytes past the segment start) or fall
back to a direct TIFF header at the segment start, check the TIFF
signature, read the first-directory offset — note: without any sanity
bound on it — and search for `DateTimeOriginal`. -/
def extract_date_from_raf (file : ByteFile) : Option Date :=
  if readBytes file 0 8 = fujifilmSig then
    match u32be (readBytes file 84 4) with
    | none => none
    | some exifOffset =>
      if exifOffset = 0 ∨ exifOffset > 10000000 then none
      else
        let jpegHeader := readBytes file exifOffset 12
        if jpegHeader.length < 12 then none
        else
          let tb : Nat × List Nat :=
            if jpegHeader.take 4 = [255, 216, 255, 225] then
              (exifOffset + 12, readBytes file (exifOffset + 12) 8)
            else (exifOffset, jpegHeader.take 8)
          let tiffBase := tb.1
          let tiffHeader := tb.2
          if tiffHeader.length < 8 then none
          else
            let boOpt : Option ByteOrder :=
              if tiffHeader.take 4 = tiffSigLE then some .le
              else if tiffHeader.take 4 = tiffSigBE then some .be
              else none
            match boOpt with
            | none => none
            | some bo =>
              let ifdOffset := u32v bo ((tiffHeader.drop 4).take 4)
              match find_datetime_in_ifd file tiffBase bo REC_LIMIT ifdOffset with
              | none => none
              | some s => if s = [] then none else parse_date_string s
  else none

/-- Search loop for `bytes.find`: try indices `i, i+1, ...` while they
can still fit the pattern; `fuel` bounds the iterations. -/
def findFromGo (chunk pat : List Nat) : Nat → Nat → Option Nat
  | _, 0 => none
  | i, f + 1 =>
    if i + pat.length > chunk.length then none
    else if (chunk.drop i).take pat.length = pat then some i
    else findFromGo chunk pat (i + 1) f

/-- `bytes.find(pat, i)`: the least index `j ≥ i` at which `pat` occurs
in `chunk`, or `none` (Python's `-1`). -/
def findFrom (chunk pat : List Nat) (i : Nat) : Option Nat :=
  findFromGo chunk pat i (chunk.length + 1 - i)

/-- The box header read shared by both container walks: an 8-byte header
with big-endian 32-bit size and 4-byte type, extended to a 64-bit size
when the size field holds the escape value 1.  Returns
`(size, type bytes, header length)`; `none` models the `break` (or
`struct.error`) on a truncated header. -/
def read_box_header (file : ByteFile) (pos : Nat) : Option (Nat × List Nat × Nat) :=
  let header := readBytes file pos 8
  if header.length < 8 then none
  else
    match u32be (header.take 4) with
    | none => none
    | some size =>
      let btype := header.drop 4
      if size = 1 then
        let ext := readBytes file (pos + 8) 8
        if ext.length < 8 then none
        else
          match u64be ext with
          | none => none
          | some size64 => some (size64, btype, 16)
      else some (size, btype, 8)

/-- `b'uuid'`. -/
def uuidBoxType : List Nat := [117, 117, 105, 100]

/-- The grouping box types the walks descend into:
`['moov', 'trak', 'mdia', 'minf', 'stbl']`. -/
def containerBoxTypes : List (List Nat) :=
  [[109, 111, 111, 118], [116, 114, 97, 107], [109, 100, 105, 97],
   [109, 105, 110, 102], [115, 116, 98, 108]]

/-- Outcome of the TIFF-signature scan loop inside
`_extract_date_from_cr3`'s CMT1 handler: an uncaught `struct.error`
(aborting the whole extraction), a non-empty located date string
(returned to the caller), or exhaustion of the window (the box walk
continues). -/
inductive ScanOut where
  | exc
  | found (s : List Nat)
  | noHit
deriving DecidableEq

/-- The signature search step of `_extract_date_from_cr3`: the
little-endian signature is looked up first and the big-endian one only
when no little-endian match exists at or after `search_pos`. -/
def scan_find (chunk : List Nat) (searchPos : Nat) : Option Nat :=
  match findFrom chunk tiffSigLE searchPos with
  | some i => some i
  | none => findFrom chunk tiffSigBE searchPos

/-- The `while search_pos < len(chunk) - 8` loop inside
`_extract_date_from_cr3`'s CMT1 handler.  `searchStart` is the file
position of `chunk[0]`.  The loop advances by `tiff_idx + 1` after every
match; `fuel` bounds the iterations (`chunk.length + 1` always
suffices). -/
def scan_chunk (file : ByteFile) (searchStart : Nat) (chunk : List Nat) :
    Nat → Nat → ScanOut
  | _, 0 => .noHit
  | searchPos, fuel + 1 =>
    if searchPos < chunk.length - 8 then
      match scan_find chunk searchPos with
      | none => .noHit
      | some idx =>
        let bo : ByteOrder := if (chunk.drop idx).take 2 = [73, 73] then .le else .be
        match u32 bo ((chunk.drop (idx + 4)).take 4) with
        | none => .exc
        | some ifdOffset =>
          if 8 ≤ ifdOffset ∧ ifdOffset ≤ 50000 then
            match find_datetime_in_ifd file (searchStart + idx) bo REC_LIMIT ifdOffset with
            | some s =>
              if s = [] then scan_chunk file searchStart chunk (idx + 1) fuel
              else .found s
            | none => scan_chunk file searchStart chunk (idx + 1) fuel
          else scan_chunk file searchStart chunk (idx + 1) fuel
    else .noHit

/-- `f.read(min(200000, box_size - header_len - 16))` for the CMT1 box:
a negative argument (a declared size smaller than the headers) makes
Python's `read` consume the remainder of the file. -/
def cr3_chunk (file : ByteFile) (pos size hlen : Nat) : List Nat :=
  if size < hlen + 16 then file.drop (pos + hlen + 16)
  else readBytes file (pos + hlen + 16) (min 200000 (size - hlen - 16))

/-- The box-walk loop of `_extract_date_from_cr3`: iterate boxes from
`pos`, stopping on a truncated header, a size of 0, or a size larger
than the file; inside a CMT1-UUID box scan a bounded window for TIFF
structures holding `DateTimeOriginal`; descend into grouping boxes,
skip all others.  A `found` scan outcome returns
`_parse_date_string(date_str)` directly; an `exc` outcome models the
`struct.error` reaching the function's `except`, which returns `None`. -/
def cr3_walk (file : ByteFile) : Nat → Nat → Option Date
  | 0, _ => none
  | fuel + 1, pos =>
    if pos < file.length then
      match read_box_header file pos with
      | none => none
      | some (size, btype, hlen) =>
        if size = 0 ∨ size > file.length then none
        else
          if btype = uuidBoxType ∧ readBytes file (pos + hlen) 16 = cmt1Uuid then
            match scan_chunk file (pos + hlen + 16) (cr3_chunk file pos size hlen) 0
                ((cr3_chunk file pos size hlen).length + 1) with
            | .exc => none
            | .found s => parse_date_string s
            | .noHit =>
              if btype ∈ containerBoxTypes then cr3_walk file fuel (pos + hlen)
              else cr3_walk file fuel (pos + size)
          else
            if btype ∈ containerBoxTypes then cr3_walk file fuel (pos + hlen)
            else cr3_walk file fuel (pos + size)
    else none

/-- `_extract_date_from_cr3(file_path)`. -/
def extract_date_from_cr3 (file : ByteFile) : Option Date :=
  cr3_walk file (file.length + 1) 0

/-- `TIFF_TAGS` from `snappy_cr3_exif_reader_dev.py`. -/
def TIFF_TAGS : List (Nat × String) :=
  [(254, "NewSubfileType"), (255, "SubfileType"), (256, "ImageWidth"),
   (257, "ImageLength"), (258, "BitsPerSample"), (259, "Compression"),
   (262, "PhotometricInterpretation"), (270, "ImageDescription"),
   (271, "Make"), (272, "Model"), (273, "StripOffsets"), (274, "Orientation"),
   (277, "SamplesPerPixel"), (278, "RowsPerStrip"), (279, "StripByteCounts"),
   (282, "XResolution"), (283, "YResolution"), (284, "PlanarConfiguration"),
   (296, "ResolutionUnit"), (305, "Software"), (306, "DateTime"),
   (315, "Artist"), (316, "HostComputer"), (320, "ColorMap"),
   (338, "ExtraSamples"), (33432, "Copyright"), (33434, "ExposureTime"),
   (33437, "FNumber"), (34665, "ExifIFDPointer"), (34850, "ExposureProgram"),
   (34855, "ISOSpeedRatings"), (36867, "DateTimeOriginal"),
   (36868, "DateTimeDigitized"), (37377, "ShutterSpeedValue"),
   (37378, "ApertureValue"), (37380, "ExposureBiasValue"),
   (37381, "MaxApertureValue"), (37383, "MeteringMode"),
   (37384, "LightSource"), (37385, "Flash"), (37386, "FocalLength"),
   (37510, "UserComment"), (40961, "ColorSpace"), (40962, "PixelXDimension"),
   (40963, "PixelYDimension"), (41486, "FocalPlaneXResolution"),
   (41487, "FocalPlaneYResolution"), (41488, "FocalPlaneResolutionUnit"),
   (41989, "FocalLengthIn35mmFilm"), (41990, "SceneCaptureType"),
   (42034, "LensSpecification"), (42035, "LensMake"), (42036, "LensModel"),
   (42037, "LensSerialNumber"), (37121, "ComponentsConfiguration"),
   (37122, "CompressedBitsPerPixel"), (37500, "MakerNote"),
   (37520, "SubSecTime"), (37521, "SubSecTimeOriginal"),
   (37522, "SubSecTimeDigitized"), (40960, "FlashpixVersion"),
   (41495, "SensingMethod"), (41728, "FileSource"), (41729, "SceneType"),
   (41985, "CustomRendered"), (41986, "ExposureMode"), (41987, "WhiteBalance"),
   (41988, "DigitalZoomRatio"), (41991, "GainControl"), (41992, "Contrast"),
   (41993, "Saturation"), (41994, "Sharpness"), (42016, "ImageUniqueID"),
   (42080, "CompositeImage"), (42081, "SourceImageNumberOfCompositeImage"),
   (42082, "SourceExposureTimesOfCompositeImage"), (34853, "GPSIFDPointer"),
   (40965, "InteroperabilityIFDPointer"), (330, "SubIFDs")]

/-- `TIFF5_CANON_TAGS`: the vendor-variant dictionary used for the
fifth embedded directory (ordinal 4). -/
def TIFF5_CANON_TAGS : List (Nat × String) :=
  [(6, "CameraModel"), (7, "FirmwareVersion"), (149, "LensModel"),
   (150, "LensManufacturingCode")]

/-- `TIFF_TAGS.get(tag_id, f"UnknownTag_{tag_id}")`, with the
`TIFF5_CANON_TAGS` override applied to directory ordinal 4. -/
def main_tag_name (tiffNum tagId : Nat) : String :=
  if tiffNum = 4 then
    match TIFF5_CANON_TAGS.lookup tagId with
    | some s => s
    | none => (TIFF_TAGS.lookup tagId).getD ("UnknownTag_" ++ Nat.repr tagId)
  else (TIFF_TAGS.lookup tagId).getD ("UnknownTag_" ++ Nat.repr tagId)

/-- `TIFF_TAGS.get(exif_tag_id, f"UnknownExifTag_{exif_tag_id}")`. -/
def exif_tag_name (tagId : Nat) : String :=
  (TIFF_TAGS.lookup tagId).getD ("UnknownExifTag_" ++ Nat.repr tagId)

/-- `TIFF_TAGS.get(sub_tag_id, f"UnknownSubTag_{sub_tag_id}")`. -/
def sub_tag_name (tagId : Nat) : String :=
  (TIFF_TAGS.lookup tagId).getD ("UnknownSubTag_" ++ Nat.repr tagId)

/-- `prefix = f"TIFF{tiff_num+1}_" if tiff_num > 0 else ""`. -/
def tiff_prefix (tiffNum : Nat) : String :=
  if tiffNum > 0 then "TIFF" ++ Nat.repr (tiffNum + 1) ++ "_" else ""

/-- The `tiff_indices` collection loop of `extract_metadata`: repeatedly
`chunk.find(b'\x49\x49\x2A\x00', search_pos)` — only the little-endian
signature is searched — collecting every match and continuing one byte
past it.  `fuel` bounds the iterations (`chunk.length + 1` suffices). -/
def collect_tiff_indices (chunk : List Nat) : Nat → Nat → List Nat
  | _, 0 => []
  | searchPos, fuel + 1 =>
    match findFrom chunk tiffSigLE searchPos with
    | none => []
    | some i => i :: collect_tiff_indices chunk (i + 1) fuel

/-- All candidate directory starts found inside a metadata window by
`extract_metadata` (the Multi-Directory Locator). -/
def tiff_indices (chunk : List Nat) : List Nat :=
  collect_tiff_indices chunk 0 (chunk.length + 1)

/-- The child-IFD entry loop of `extract_metadata` (both the EXIF-IFD
and SubIFD cases): read 12-byte entries, decode each with
`format_tag_value` and record it under `nameF`.  The cursor is threaded
through `format_tag_value`, whose error path can leave it displaced. -/
def child_entry_loop (file : ByteFile) (tiffBase : Nat) (nameF : Nat → String)
    (pfx : String) : Nat → Nat → List (String × TagValue)
  | _, 0 => []
  | p, k + 1 =>
    let entry := readBytes file p 12
    if entry.length < 12 then []
    else
      let tagId := u16v .le (entry.take 2)
      let tagType := u16v .le ((entry.drop 2).take 2)
      let cnt := u32v .le ((entry.drop 4).take 4)
      let valueData := (entry.drop 8).take 4
      let vp := format_tag_value tagType cnt valueData file tiffBase (p + 12)
      (pfx ++ nameF tagId, vp.1) :: child_entry_loop file tiffBase nameF pfx vp.2 k

/-- The IFD0 entry loop of `extract_metadata` for one embedded TIFF:
returns the `(key, value)` pairs in insertion order.  Tag 34665
(EXIF-IFD pointer) and tag 330 (SubIFDs pointer) descend one level into
a child directory — a truncated child entry count raises `struct.error`,
which the per-TIFF `except` turns into abandoning the directory while
keeping the fields already recorded. -/
def main_entry_loop (file : ByteFile) (tiffBase tiffNum : Nat) :
    Nat → Nat → List (String × TagValue)
  | _, 0 => []
  | p, m + 1 =>
    let entry := readBytes file p 12
    if entry.length < 12 then []
    else
      let tagId := u16v .le (entry.take 2)
      let tagType := u16v .le ((entry.drop 2).take 2)
      let cnt := u32v .le ((entry.drop 4).take 4)
      let valueData := (entry.drop 8).take 4
      let pfx := tiff_prefix tiffNum
      if tagId = 34665 then
        let exifOffset := u32v .le valueData
        match u16le (readBytes file (tiffBase + exifOffset) 2) with
        | none => []
        | some en =>
          child_entry_loop file tiffBase exif_tag_name pfx (tiffBase + exifOffset + 2) en ++
            main_entry_loop file tiffBase tiffNum (p + 12) m
      else if tagId = 330 then
        let subOffset := u32v .le valueData
        match u16le (readBytes file (tiffBase + subOffset) 2) with
        | none => []
        | some sn =>
          child_entry_loop file tiffBase sub_tag_name (pfx ++ "SubIFD_")
              (tiffBase + subOffset + 2) sn ++
            main_entry_loop file tiffBase tiffNum (p + 12) m
      else
        let vp := format_tag_value tagType cnt valueData file tiffBase (p + 12)
        (pfx ++ main_tag_name tiffNum tagId, vp.1) :: main_entry_loop file tiffBase tiffNum vp.2 m

/-- Processing of a single embedded TIFF structure by `extract_metadata`:
read the IFD0 offset at `tiff_base + 4`, reject offsets outside
`[8, 50000]`, read the 2-byte entry count, reject counts above 200, then
decode the entries.  Any skip or error contributes no fields
(`continue`). -/
def process_tiff (file : ByteFile) (searchStart tiffNum tiffIdx : Nat) :
    List (String × TagValue) :=
  let tiffBase := searchStart + tiffIdx
  match u32le (readBytes file (tiffBase + 4) 4) with
  | none => []
  | some ifdOffset =>
    if ifdOffset > 50000 ∨ ifdOffset < 8 then []
    else
      match u16le (readBytes file (tiffBase + ifdOffset) 2) with
      | none => []
      | some n =>
        if n > 200 then []
        else main_entry_loop file tiffBase tiffNum (tiffBase + ifdOffset + 2) n

/-- The `for tiff_num, tiff_idx in enumerate(tiff_indices)` loop:
fields from every candidate directory, in insertion order. -/
def process_tiffs (file : ByteFile) (searchStart : Nat) :
    Nat → List Nat → List (String × TagValue)
  | _, [] => []
  | tiffNum, idx :: rest =>
    process_tiff file searchStart tiffNum idx ++
      process_tiffs file searchStart (tiffNum + 1) rest

/-- The box-walk loop of `extract_metadata`: like the date walk, but on a
CMT1-UUID box it reads a flat 200000-byte window, locates every embedded
directory and decodes them all, returning the collected mapping when it
is non-empty (`if metadata: return metadata`). -/
def meta_walk (file : ByteFile) : Nat → Nat → Option (List (String × TagValue))
  | 0, _ => none
  | fuel + 1, pos =>
    if pos < file.length then
      match read_box_header file pos with
      | none => none
      | some (size, btype, hlen) =>
        if size = 0 ∨ size > file.length then none
        else
          if btype = uuidBoxType ∧ readBytes file (pos + hlen) 16 = cmt1Uuid then
            if process_tiffs file (pos + hlen + 16) 0
                (tiff_indices (readBytes file (pos + hlen + 16) 200000)) ≠ [] then
              some (process_tiffs file (pos + hlen + 16) 0
                (tiff_indices (readBytes file (pos + hlen + 16) 200000)))
            else
              if btype ∈ containerBoxTypes then meta_walk file fuel (pos + hlen)
              else meta_walk file fuel (pos + size)
          else
            if btype ∈ containerBoxTypes then meta_walk file fuel (pos + hlen)
            else meta_walk file fuel (pos + size)
    else none

/-- `extract_metadata(file_path)` (the decoding core; a `None` result
covers both the final `return None` and the `except` handler). -/
def extract_metadata (file : ByteFile) : Option (List (String × TagValue)) :=
  meta_walk file (file.length + 1) 0

/-- Size in bytes of one element of each TIFF entry type, as enumerated
in `format_tag_value`'s docstring (1=BYTE, 2=ASCII, 3=SHORT, 4=LONG,
5=RATIONAL, 7=UNDEFINED, 9=SLONG, 10=SRATIONAL).  Used only to state the
spec's `type size × count` criterion; the source never computes it. -/
def tiff_type_size (t : Nat) : Nat :=
  if t = 3 then 2
  else if t = 4 ∨ t = 9 then 4
  else if t = 5 ∨ t = 10 then 8
  else 1

/-- Modelled from the spec: the claimed bounded directory traversal in
which following a child EXIF-IFD pointer descends at most one additional
level below the parent, and pointer chains deeper than one child level
are never followed.  Stated for comparison with the source's
`find_datetime_in_ifd`. -/
def find_datetime_one_level (file : ByteFile) (tiffBase : Nat) (bo : ByteOrder)
    (ifdOffset : Nat) : Option (List Nat) :=
  ifd_step file tiffBase bo
    (fun off => ifd_step file tiffBase bo (fun _ => none) off) ifdOffset

/-- A TIFF stream whose IFD0 (at offset 8) holds one EXIF-IFD pointer to
a directory at offset 22, which holds another EXIF-IFD pointer to a
directory at offset 36, which holds `DateTimeOriginal` (count 4, text
`"abcd"` embedded in the slot): the timestamp sits two pointer levels
below IFD0. -/
def c8_chain_file : ByteFile :=
  List.replicate 8 0 ++
  [1, 0] ++ [105, 135, 4, 0, 1, 0, 0, 0, 22, 0, 0, 0] ++
  [1, 0] ++ [105, 135, 4, 0, 1, 0, 0, 0, 36, 0, 0, 0] ++
  [1, 0] ++ [3, 144, 2, 0, 4, 0, 0, 0, 97, 98, 99, 100]

/-- A RAF file whose embedded TIFF header (at segment offset 16) declares
a first-directory offset of 4 — inside the 8-byte header — and whose
overlapping directory nevertheless contains a well-formed
`DateTimeOriginal` entry pointing at `"2024:03:15 10:30:00"`. -/
def c7_raf_file : ByteFile :=
  fujifilmSig ++ List.replicate 8 0 ++ tiffSigLE ++ [4, 0, 0, 0] ++
  List.replicate 10 0 ++
  [3, 144, 2, 0, 20, 0, 0, 0, 100, 0, 0, 0] ++
  List.replicate 38 0 ++
  [0, 0, 0, 16] ++ List.replicate 28 0 ++
  [50, 48, 50, 52, 58, 48, 51, 58, 49, 53, 32, 49, 48, 58, 51, 48, 58, 48, 48, 0]

/-- A minimal CR3 container: one 74-byte `uuid` box carrying the Canon
CMT1 identifier, a little-endian TIFF structure whose IFD0 has a single
`DateTimeOriginal` entry with an out-of-line 20-byte value
`"2024:03:15 10:30:00"`. -/
def c9_cr3_file : ByteFile :=
  [0, 0, 0, 74] ++ uuidBoxType ++ cmt1Uuid ++
  tiffSigLE ++ [8, 0, 0, 0] ++ [1, 0] ++
  [3, 144, 2, 0, 20, 0, 0, 0, 30, 0, 0, 0] ++
  List.replicate 8 0 ++
  [50, 48, 50, 52, 58, 48, 51, 58, 49, 53, 32, 49, 48, 58, 51, 48, 58, 48, 48, 0]

/-- A TIFF stream whose IFD0 holds a `DateTimeOriginal` entry with the
malformed literal text `"abcd"`. -/
def c10_file : ByteFile :=
  tiffSigLE ++ [8, 0, 0, 0] ++ [1, 0] ++ [3, 144, 2, 0, 4, 0, 0, 0, 97, 98, 99, 100]

/-- A TIFF structure declaring 500 directory entries (`[244, 1]`
little-endian), above the 200-entry sanity ceiling. -/
def c4_file : ByteFile :=
  tiffSigLE ++ [8, 0, 0, 0] ++ [244, 1]

/-- A box whose declared size field is 0. -/
def c5_file : ByteFile := [0, 0, 0, 0, 102, 114, 101, 101]

/-- A 90-byte container: an 8-byte `ftyp` box followed at position 8 by
a `moov` box declaring size 90 — more than the 82 bytes remaining after
position 8, but not more than the 90-byte total — whose interior holds
the CMT1 box of `c9_cr3_file`. -/
def c5_moov_file : ByteFile :=
  [0, 0, 0, 8, 102, 116, 121, 112] ++ [0, 0, 0, 90] ++ [109, 111, 111, 118] ++ c9_cr3_file

/-- An IFD entry addressing an out-of-line LONG array: the file holds
byte value 99 at offset 5, distinct from the literal slot value 5. -/
def c1_long_file : ByteFile := List.replicate 5 0 ++ [99, 0, 0, 0]

/-- A file holding the two 16-bit values 7 and 9 at offset 12, the
target of a SHORT entry with count 2. -/
def c1_short_file : ByteFile := List.replicate 12 0 ++ [7, 0, 9, 0]

theorem parse_date_string_wellformed :
    parse_date_string [50, 48, 50, 52, 58, 48, 51, 58, 49, 53, 32, 49, 48, 58, 51, 48, 58, 48, 48] =
      some ⟨2024, 3, 15⟩ := by decide

theorem parse_date_string_garbage : parse_date_string [97, 98, 99, 100] = none := by decide

theorem parse_date_string_bad_month :
    parse_date_string [50, 48, 50, 52, 58, 49, 51, 58, 49, 53, 32, 49, 48, 58, 51, 48, 58, 48, 48] =
      none := by decide

theorem u16le_length {b : List Nat} {v : Nat} (h : u16le b = some v) : b.length = 2 := by
  unfold u16le at h
  match b with
  | [] => simp at h
  | [_] => simp at h
  | [_, _] => rfl
  | _ :: _ :: _ :: _ => simp at h

theorem u32le_length {b : List Nat} {v : Nat} (h : u32le b = some v) : b.length = 4 := by
  unfold u32le at h
  match b with
  | [] => simp at h
  | [_] => simp at h
  | [_, _] => simp at h
  | [_, _, _] => simp at h
  | [_, _, _, _] => rfl
  | _ :: _ :: _ :: _ :: _ :: _ => simp at h

theorem i32le_length {b : List Nat} {v : Int} (h : i32le b = some v) : b.length = 4 := by
  unfold i32le at h
  match h2 : u32le b with
  | some w => exact u32le_length h2
  | none => rw [h2] at h; simp at h

/-- Claim C1 counterexample: the literal-vs-pointer decision is not the
spec's `type size × count ≤ 4` rule.  A LONG entry with count 2
(8 bytes, which the claim says must be fetched from `base + slot`) is
decoded literally from the slot — the slot value 5 is returned even
though the four bytes at offset 5 hold the value 99 — and a SHORT entry
with count 2 (4 bytes, which the claim says must be decoded literally)
is fetched out-of-line, returning the values `[7, 9]` stored at the
pointed-to offset 12 rather than any literal reading of the slot
`[12, 0, 0, 0]`. -/
theorem C1_counterexample :
    format_tag_value 4 2 [5, 0, 0, 0] c1_long_file 0 0 = (.int 5, 0) ∧
    u32le (readBytes c1_long_file 5 4) = some 99 ∧
    tiff_type_size 4 * 2 > 4 ∧
    format_tag_value 3 2 [12, 0, 0, 0] c1_short_file 0 0 = (.ints [7, 9], 0) ∧
    u16le (readBytes c1_short_file 12 2) = some 7 ∧
    tiff_type_size 3 * 2 ≤ 4 := by
  refine ⟨by decide, by decide, by decide, by decide, by decide, by decide⟩

/-- Claim C1, amended: the literal-vs-pointer decision is made per type,
not by comparing `type size × count` to 4 bytes.  ASCII entries follow
the `count ≤ 4` rule; SHORT entries are literal only when `count = 1`
and are fetched from `base + slot` otherwise (even when `count = 2`
fits in the slot); LONG entries and entries of unrecognized type are
always decoded as an unsigned 32-bit literal from the slot regardless of
count; RATIONAL and SRATIONAL entries are always out-of-line. -/
theorem C1_theorem :
    (∀ cnt vd (file : ByteFile) b p, cnt ≤ 4 →
      format_tag_value 2 cnt vd file b p = (.str (decodeUtf8Ignore (splitNul vd)), p)) ∧
    (∀ cnt vd (file : ByteFile) b p off, 4 < cnt → u32le vd = some off →
      format_tag_value 2 cnt vd file b p =
        (.str (decodeUtf8Ignore (splitNul (readBytes file (b + off) cnt))), p)) ∧
    (∀ cnt vd (file : ByteFile) b p v, u32le vd = some v →
      format_tag_value 4 cnt vd file b p = (.int v, p)) ∧
    (∀ vd (file : ByteFile) b p off v1 v2 q, u32le vd = some off →
      read_shorts file (b + off) 2 = (some [v1, v2], q) →
      format_tag_value 3 2 vd file b p = (.ints [(v1 : Int), (v2 : Int)], p)) ∧
    (∀ t cnt vd (file : ByteFile) b p v, t ∉ ([2, 3, 4, 5, 10] : List Nat) →
      u32le vd = some v → format_tag_value t cnt vd file b p = (.int v, p)) := by
  refine ⟨?_, ?_, ?_, ?_, ?_⟩
  · intro cnt vd file b p h
    simp [format_tag_value, h]
  · intro cnt vd file b p off h1 h2
    simp [format_tag_value, Nat.not_le.mpr h1, h2]
  · intro cnt vd file b p v h
    simp [format_tag_value, h]
  · intro vd file b p off v1 v2 q h1 h2
    simp [format_tag_value, h1, h2]
  · intro t cnt vd file b p v ht h
    simp only [List.mem_cons, List.not_mem_nil, or_false, not_or] at ht
    obtain ⟨h2, h3, h4, h5, h10⟩ := ht
    simp [format_tag_value, h2, h3, h4, h5, h10, h]

/-- Witness for `C1_theorem` at concrete inputs. -/
theorem C1_witness :
    format_tag_value 2 4 [65, 66, 0, 0] [] 0 3 = (.str [65, 66], 3) ∧
    format_tag_value 2 6 [0, 0, 0, 0] [72, 73, 0, 0, 0, 0] 0 3 = (.str [72, 73], 3) ∧
    format_tag_value 4 2 [5, 0, 0, 0] [] 0 3 = (.int 5, 3) ∧
    format_tag_value 3 2 [0, 0, 0, 0] [7, 0, 9, 0] 0 3 = (.ints [7, 9], 3) ∧
    format_tag_value 7 1 [1, 2, 0, 0] [] 0 3 = (.int 513, 3) := by
  refine ⟨?_, ?_, ?_, ?_, ?_⟩
  · exact (C1_theorem.1 4 [65, 66, 0, 0] [] 0 3 (by decide)).trans (by decide)
  · exact (C1_theorem.2.1 6 [0, 0, 0, 0] [72, 73, 0, 0, 0, 0] 0 3 0 (by decide)
      (by decide)).trans (by decide)
  · exact C1_theorem.2.2.1 2 [5, 0, 0, 0] [] 0 3 5 (by decide)
  · exact (C1_theorem.2.2.2.1 [0, 0, 0, 0] [7, 0, 9, 0] 0 3 0 7 9 4 (by decide)
      (by decide)).trans (by decide)
  · exact C1_theorem.2.2.2.2 7 1 [1, 2, 0, 0] [] 0 3 513 (by decide) (by decide)

/-- Claim C2: RATIONAL and SRATIONAL entries are always read out-of-line
as two 4-byte components at `base + pointer`; the decoded result is the
quotient of numerator and denominator (Python float division, modelled
as the exact rational), except that a zero denominator yields 0 and no
exception; the cursor is restored in every case. -/
theorem C2_theorem :
    (∀ cnt vd (file : ByteFile) b p off num den, u32le vd = some off →
      u32le (readBytes file (b + off) 4) = some num →
      u32le (readBytes file (b + off + 4) 4) = some den →
      format_tag_value 5 cnt vd file b p =
        ((if den = 0 then .int 0 else .rat ((num : Rat) / (den : Rat))), p)) ∧
    (∀ cnt vd (file : ByteFile) b p off num den, u32le vd = some off →
      i32le (readBytes file (b + off) 4) = some num →
      i32le (readBytes file (b + off + 4) 4) = some den →
      format_tag_value 10 cnt vd file b p =
        ((if den = 0 then .int 0 else .rat ((num : Rat) / (den : Rat))), p)) := by
  constructor
  · intro cnt vd file b p off num den h1 h2 h3
    have hl : (readBytes file (b + off) 4).length = 4 := u32le_length h2
    have hl2 : (readBytes file (b + off + 4) 4).length = 4 := u32le_length h3
    have hp : read_u32_pair file (b + off) = (some (num, den), b + off + 4 + 4) := by
      simp [read_u32_pair, hl, hl2, h2, h3]
    simp [format_tag_value, h1, hp]
    split_ifs <;> rfl
  · intro cnt vd file b p off num den h1 h2 h3
    have hl : (readBytes file (b + off) 4).length = 4 := i32le_length h2
    have hl2 : (readBytes file (b + off + 4) 4).length = 4 := i32le_length h3
    have hp : read_i32_pair file (b + off) = (some (num, den), b + off + 4 + 4) := by
      simp [read_i32_pair, hl, hl2, h2, h3]
    simp [format_tag_value, h1, hp]
    split_ifs <;> rfl

/-- Witness for `C2_theorem`: an unsigned rational 4/2 decodes to the
quotient 2, a zero-denominator rational decodes to 0, and a signed
rational -4/2 decodes to -2. -/
theorem C2_witness :
    format_tag_value 5 1 [0, 0, 0, 0] [4, 0, 0, 0, 2, 0, 0, 0] 0 3 = (.rat 2, 3) ∧
    format_tag_value 5 1 [0, 0, 0, 0] [4, 0, 0, 0, 0, 0, 0, 0] 0 3 = (.int 0, 3) ∧
    format_tag_value 10 1 [0, 0, 0, 0] [252, 255, 255, 255, 2, 0, 0, 0] 0 3 = (.rat (-2), 3) := by
  refine ⟨?_, ?_, ?_⟩
  · exact (C2_theorem.1 1 [0, 0, 0, 0] [4, 0, 0, 0, 2, 0, 0, 0] 0 3 0 4 2
      (by decide) (by decide) (by decide)).trans (by norm_num)
  · exact (C2_theorem.1 1 [0, 0, 0, 0] [4, 0, 0, 0, 0, 0, 0, 0] 0 3 0 4 0
      (by decide) (by decide) (by decide)).trans (by norm_num)
  · exact (C2_theorem.2 1 [0, 0, 0, 0] [252, 255, 255, 255, 2, 0, 0, 0] 0 3 0 (-4) 2
      (by decide) (by decide) (by decide)).trans (by norm_num)

/-- Claim C3 counterexample: the cursor is not always restored for
out-of-line entries.  A RATIONAL entry (8 bytes, out-of-line by the
claim's `type size × count > 4` criterion) whose pointer lands beyond
the end of the file makes the out-of-line read fail; the `except`
handler returns the error placeholder with the cursor left at the
failure point (position 0), not at the pre-decode position 7. -/
theorem C3_counterexample :
    format_tag_value 5 1 [0, 0, 0, 0] [] 0 7 = (.err, 0) ∧
    tiff_type_size 5 * 1 > 4 ∧ (0 : Nat) ≠ 7 := by
  refine ⟨by decide, by decide, by decide⟩

/-- Claim C3, amended: for every entry that decodes without error —
in particular for every out-of-line entry whose reads stay inside the
file — the cursor position after `format_tag_value` equals the position
before; when a read of out-of-line data fails, the error placeholder is
returned with the cursor left at the failure point instead. -/
theorem C3_theorem (tagType cnt : Nat) (valueData : List Nat) (file : ByteFile)
    (dataOffset pos : Nat)
    (h : (format_tag_value tagType cnt valueData file dataOffset pos).1 ≠ .err) :
    (format_tag_value tagType cnt valueData file dataOffset pos).2 = pos := by
  unfold format_tag_value at h ⊢
  split_ifs at h ⊢ <;> (repeat' split at h) <;> simp_all

/-- Witness for `C3_theorem`: a successful literal ASCII decode leaves
the cursor at its pre-decode position. -/
theorem C3_witness :
    (format_tag_value 2 2 [65, 0, 0, 0] [] 0 3).1 ≠ .err ∧
    (format_tag_value 2 2 [65, 0, 0, 0] [] 0 3).2 = 3 :=
  ⟨by decide, C3_theorem 2 2 [65, 0, 0, 0] [] 0 3 (by decide)⟩

/-- Claim C4: a tag directory whose declared 2-byte entry count exceeds
the sanity ceiling of 200 is skipped entirely — it contributes zero
decoded fields in the full extractor (and the surrounding loop simply
moves on to the next candidate directory), and the date extractor's
directory search returns `None` for it — without any crash. -/
theorem C4_theorem :
    (∀ (file : ByteFile) s tn idx rest off n,
      u32le (readBytes file (s + idx + 4) 4) = some off →
      ¬(off > 50000 ∨ off < 8) →
      u16le (readBytes file (s + idx + off) 2) = some n → n > 200 →
      process_tiff file s tn idx = [] ∧
      process_tiffs file s tn (idx :: rest) = process_tiffs file s (tn + 1) rest) ∧
    (∀ (file : ByteFile) tb bo fuel off n,
      u16 bo (readBytes file (tb + off) 2) = some n → n > 200 →
      find_datetime_in_ifd file tb bo (fuel + 1) off = none) := by
  constructor
  · intro file s tn idx rest off n h1 h2 h3 h4
    have hpt : process_tiff file s tn idx = [] := by
      simp [process_tiff, h1, h2, h3, h4]
    exact ⟨hpt, by simp [process_tiffs, hpt]⟩
  · intro file tb bo fuel off n h1 h2
    simp [find_datetime_in_ifd, ifd_step, h1, h2]

/-- Witness for `C4_theorem`: a directory declaring 500 entries yields
no fields and is skipped by both decoders. -/
theorem C4_witness :
    (process_tiff c4_file 0 0 0 = [] ∧
      process_tiffs c4_file 0 0 [0] = process_tiffs c4_file 0 1 []) ∧
    find_datetime_in_ifd c4_file 0 .le (999 + 1) 8 = none :=
  ⟨C4_theorem.1 c4_file 0 0 0 [] 8 500 (by decide) (by decide) (by decide) (by decide),
   C4_theorem.2 c4_file 0 .le 999 8 500 (by decide) (by decide)⟩

/-- Claim C5 counterexample: the size check compares against the total
file length, not the remaining length.  In `c5_moov_file` the `moov` box
at position 8 declares size 90, which exceeds the 82 bytes remaining at
that position; the claim says the walk terminates there without reading
further and returns what was assembled (nothing), yet the walk descends
into the box, keeps reading, and extracts a date from the CMT1 box
nested inside it. -/
theorem C5_counterexample :
    extract_date_from_cr3 c5_moov_file = some ⟨2024, 3, 15⟩ ∧
    read_box_header c5_moov_file 8 = some (90, [109, 111, 111, 118], 8) ∧
    90 > c5_moov_file.length - 8 := by
  refine ⟨by decide, by decide, by decide⟩

/-- Claim C5, amended: a box whose declared size is 0 or exceeds the
TOTAL file length makes both container walks stop at that box without
reading further — the date walk and the metadata walk return
immediately (any previously-assembled result having already been
returned by the walk at the directory that produced it).  A size merely
exceeding the remaining length passes the check. -/
theorem C5_theorem (file : ByteFile) (pos fuel size : Nat) (btype : List Nat) (hlen : Nat)
    (hpos : pos < file.length)
    (hhdr : read_box_header file pos = some (size, btype, hlen))
    (hbad : size = 0 ∨ size > file.length) :
    cr3_walk file (fuel + 1) pos = none ∧ meta_walk file (fuel + 1) pos = none := by
  constructor
  · simp [cr3_walk, hpos, hhdr, hbad]
  · simp [meta_walk, hpos, hhdr, hbad]

/-- Witness for `C5_theorem`: a box with declared size 0 stops both
walks at once. -/
theorem C5_witness :
    cr3_walk c5_file (8 + 1) 0 = none ∧ meta_walk c5_file (8 + 1) 0 = none :=
  C5_theorem c5_file 0 8 0 [102, 114, 101, 101] 8 (by decide) (by decide) (Or.inl rfl)

/-- Claim C7 counterexample: the RAF strategy applies no sanity bound to
the first-directory offset.  `c7_raf_file` declares a first-directory
offset of 4 — inside the 8-byte header, which the claim says every
strategy rejects before decoding — yet the decode proceeds and
extracts a date. -/
theorem C7_counterexample :
    extract_date_from_raf c7_raf_file = some ⟨2024, 3, 15⟩ ∧
    u32v .le (readBytes c7_raf_file 20 4) = 4 ∧ (4 : Nat) < 8 := by
  refine ⟨by decide, by decide, by decide⟩

/-- Claim C7, amended: the strategies do not share one first-directory
offset bound.  The direct-TIFF strategy rejects offsets outside
`[8, 65536]` before decoding; the CR3 window scan rejects offsets
outside `[8, 50000]` (skipping to the next signature candidate); but the
RAF strategy decodes at whatever first-directory offset the embedded
header declares, bounding only the preview/EXIF segment offset. -/
theorem C7_theorem :
    (∀ (file : ByteFile) off,
      (readBytes file 0 8).length = 8 →
      (readBytes file 0 8).take 4 = tiffSigLE →
      u32v .le (((readBytes file 0 8).drop 4).take 4) = off →
      off < 8 ∨ off > 65536 →
      extract_date_from_tiff_raw file = none) ∧
    (∀ (file : ByteFile) searchStart (chunk : List Nat) sp fuel idx off,
      sp < chunk.length - 8 →
      scan_find chunk sp = some idx →
      u32 (if (chunk.drop idx).take 2 = [73, 73] then ByteOrder.le else ByteOrder.be)
        ((chunk.drop (idx + 4)).take 4) = some off →
      off < 8 ∨ off > 50000 →
      scan_chunk file searchStart chunk sp (fuel + 1) =
        scan_chunk file searchStart chunk (idx + 1) fuel) ∧
    (∀ (file : ByteFile) exifOffset,
      readBytes file 0 8 = fujifilmSig →
      u32be (readBytes file 84 4) = some exifOffset →
      ¬(exifOffset = 0 ∨ exifOffset > 10000000) →
      ¬((readBytes file exifOffset 12).length < 12) →
      (readBytes file exifOffset 12).take 4 ≠ [255, 216, 255, 225] →
      ((readBytes file exifOffset 12).take 8).take 4 = tiffSigLE →
      extract_date_from_raf file =
        match find_datetime_in_ifd file exifOffset .le REC_LIMIT
            (u32v .le ((((readBytes file exifOffset 12).take 8).drop 4).take 4)) with
        | none => none
        | some s => if s = [] then none else parse_date_string s) := by
  refine ⟨?_, ?_, ?_⟩
  · intro file off h1 h2 h3 h4
    have hloc : tiff_raw_locate file = none := by
      simp [tiff_raw_locate, h1, h2, h3, h4]
    simp [extract_date_from_tiff_raw, hloc]
  · intro file searchStart chunk sp fuel idx off h1 h2 h3 h4
    have hno : ¬(8 ≤ off ∧ off ≤ 50000) := by omega
    simp only [scan_chunk, if_pos h1, h2, h3, if_neg hno]
  · intro file exifOffset h1 h2 h3 h4 h5 h6
    have hl : ((readBytes file exifOffset 12).take 8).length = 8 := by
      rw [List.length_take]
      omega
    simp [extract_date_from_raf, h1, h2, h3, h4, h5, h6, hl]

/-- Witness for `C7_theorem` at concrete inputs: a direct-TIFF header
declaring offset 4 is rejected; a window-scan hit with offset 0 is
skipped; and the RAF decode equation holds on `c7_raf_file`. -/
theorem C7_witness :
    extract_date_from_tiff_raw [73, 73, 42, 0, 4, 0, 0, 0] = none ∧
    scan_chunk [] 0 [73, 73, 42, 0, 0, 0, 0, 0, 0] 0 (0 + 1) =
      scan_chunk [] 0 [73, 73, 42, 0, 0, 0, 0, 0, 0] 1 0 ∧
    extract_date_from_raf c7_raf_file =
      match find_datetime_in_ifd c7_raf_file 16 .le REC_LIMIT
          (u32v .le ((((readBytes c7_raf_file 16 12).take 8).drop 4).take 4)) with
      | none => none
      | some s => if s = [] then none else parse_date_string s := by
  refine ⟨?_, ?_, ?_⟩
  · exact C7_theorem.1 [73, 73, 42, 0, 4, 0, 0, 0] 4 (by decide) (by decide) (by decide)
      (by decide)
  · exact C7_theorem.2.1 [] 0 [73, 73, 42, 0, 0, 0, 0, 0, 0] 0 0 0 0 (by decide) (by decide)
      (by decide) (by decide)
  · exact C7_theorem.2.2 c7_raf_file 16 (by decide) (by decide) (by decide) (by decide)
      (by decide) (by decide)

/-- Claim C8 counterexample: the date extractor's directory walker does
follow pointer chains deeper than one child level.  In `c8_chain_file`
the timestamp text `"abcd"` sits below two chained EXIF-IFD pointers
(IFD0 → IFD1 → IFD2); the source walker retrieves it, while the claimed
one-additional-level traversal cannot. -/
theorem C8_counterexample :
    find_datetime_in_ifd c8_chain_file 0 .le 5 8 = some [97, 98, 99, 100] ∧
    find_datetime_one_level c8_chain_file 0 .le 8 = none := by
  refine ⟨by decide, by decide⟩

/-- Claim C8, amended: in the date extractor, recursion on EXIF-IFD
pointer entries is unbounded — a chain two levels deep is followed
whenever at least three recursion frames remain, and the traversal is
cut off only by the recursion budget (the interpreter's recursion limit,
whose exhaustion the handler converts to `None`, so traversal still
terminates on every input).  The full extractor's child handling, by
contrast, is structurally limited to one level. -/
theorem C8_theorem :
    (∀ fuel, find_datetime_in_ifd c8_chain_file 0 .le (fuel + 3) 8 = some [97, 98, 99, 100]) ∧
    find_datetime_in_ifd c8_chain_file 0 .le 2 8 = none := by
  constructor
  · intro fuel
    rfl
  · decide

/-- Claim C10: in date-only extraction, located timestamp text that does
not parse in the exact `YYYY:MM:DD HH:MM:SS` format — or a located
nothing — produces the explicit unavailable result `None`, exactly as if
no timestamp existed. -/
theorem C10_theorem (file : ByteFile) :
    (tiff_raw_locate file = none → extract_date_from_tiff_raw file = none) ∧
    (∀ s, tiff_raw_locate file = some s → parse_date_string s = none →
      extract_date_from_tiff_raw file = none) := by
  constructor
  · intro h
    simp [extract_date_from_tiff_raw, h]
  · intro s h hp
    simp only [extract_date_from_tiff_raw, h]
    split_ifs <;> simp [hp]

/-- Witness for `C10_theorem`: a file whose `DateTimeOriginal` field
holds the malformed text `"abcd"` extracts to `None`. -/
theorem C10_witness :
    tiff_raw_locate c10_file = some [97, 98, 99, 100] ∧
    extract_date_from_tiff_raw c10_file = none :=
  ⟨by decide, (C10_theorem c10_file).2 [97, 98, 99, 100] (by decide) (by decide)⟩

theorem cr3_walk_parsed (file : ByteFile) :
    ∀ fuel pos d, cr3_walk file fuel pos = some d → ∃ s, parse_date_string s = some d := by
  intro fuel
  induction fuel with
  | zero =>
    intro pos d h
    simp [cr3_walk] at h
  | succ n ih =>
    intro pos d h
    simp only [cr3_walk] at h
    split at h
    · split at h
      · simp at h
      · split at h
        · simp at h
        · split at h
          · split at h
            · simp at h
            · exact ⟨_, h⟩
            · split at h
              · exact ih _ _ h
              · exact ih _ _ h
          · split at h
            · exact ih _ _ h
            · exact ih _ _ h
    · simp at h

/-- Claim C9: every date the CR3 date-only extractor returns originates
from a successfully parsed timestamp string — the decoder never
fabricates a default or zero date, and when no strategy yields a usable
timestamp the result is the explicit absence signal `None` (exceptions
being converted to `None` inside the decoder by construction of the
model's total functions). -/
theorem C9_theorem (file : ByteFile) (d : Date)
    (h : extract_date_from_cr3 file = some d) :
    ∃ s, parse_date_string s = some d :=
  cr3_walk_parsed file (file.length + 1) 0 d h

/-- Witness for `C9_theorem`: a well-formed CR3 container extracts the
date 2024-03-15, which therefore stems from a parsed timestamp. -/
theorem C9_witness : ∃ s, parse_date_string s = some ⟨2024, 3, 15⟩ :=
  C9_theorem c9_cr3_file ⟨2024, 3, 15⟩ (by decide)

theorem findFromGo_sound (chunk pat : List Nat) :
    ∀ f i j, findFromGo chunk pat i f = some j →
      i ≤ j ∧ (chunk.drop j).take pat.length = pat := by
  intro f
  induction f with
  | zero =>
    intro i j h
    simp [findFromGo] at h
  | succ n ih =>
    intro i j h
    simp only [findFromGo] at h
    split at h
    · simp at h
    · split at h
      · rename_i hmatch
        obtain rfl : i = j := by simpa using h
        exact ⟨le_refl _, hmatch⟩
      · obtain ⟨h1, h2⟩ := ih (i + 1) j h
        exact ⟨by omega, h2⟩

theorem findFromGo_min (chunk pat : List Nat) :
    ∀ f i j, findFromGo chunk pat i f = some j →
      ∀ k, i ≤ k → k < j → (chunk.drop k).take pat.length ≠ pat := by
  intro f
  induction f with
  | zero =>
    intro i j h
    simp [findFromGo] at h
  | succ n ih =>
    intro i j h k hik hkj
    simp only [findFromGo] at h
    split at h
    · simp at h
    · split at h
      · obtain rfl : i = j := by simpa using h
        omega
      · rename_i hnm
        rcases Nat.eq_or_lt_of_le hik with rfl | hlt
        · exact hnm
        · exact ih (i + 1) j h k hlt hkj

theorem findFromGo_none (chunk pat : List Nat) (hpat : 0 < pat.length) :
    ∀ f i, chunk.length + 1 - i ≤ f → findFromGo chunk pat i f = none →
      ∀ k, i ≤ k → (chunk.drop k).take pat.length ≠ pat := by
  intro f
  induction f with
  | zero =>
    intro i hf _ k hik hmatch
    have hk : chunk.length ≤ k := by omega
    rw [List.drop_eq_nil_of_le hk] at hmatch
    have := congrArg List.length hmatch
    simp at this
    omega
  | succ n ih =>
    intro i hf h k hik hmatch
    simp only [findFromGo] at h
    split at h
    · rename_i hover
      have hlen := congrArg List.length hmatch
      simp [List.length_take, List.length_drop] at hlen
      omega
    · split at h
      · simp at h
      · rename_i hnm
        rcases Nat.eq_or_lt_of_le hik with rfl | hlt
        · exact hnm hmatch
        · exact ih (i + 1) (by omega) h k hlt hmatch

theorem sig_match_bound {chunk : List Nat} {j : Nat}
    (h : (chunk.drop j).take 4 = tiffSigLE) : j + 4 ≤ chunk.length := by
  have := congrArg List.length h
  simp [List.length_take, List.length_drop, tiffSigLE] at this
  omega

theorem collect_eq_filter (chunk : List Nat) :
    ∀ f sp, chunk.length + 1 - sp ≤ f →
      collect_tiff_indices chunk sp f =
        (List.range' sp (chunk.length - sp)).filter
          (fun i => decide ((chunk.drop i).take 4 = tiffSigLE)) := by
  intro f
  induction f with
  | zero =>
    intro sp hsp
    have h0 : chunk.length - sp = 0 := by omega
    simp [collect_tiff_indices, h0]
  | succ n ih =>
    intro sp hsp
    simp only [collect_tiff_indices]
    split
    · rename_i hnone
      rw [findFrom] at hnone
      symm
      rw [List.filter_eq_nil_iff]
      intro a ha
      rw [List.mem_range'_1] at ha
      have := findFromGo_none chunk tiffSigLE (by decide)
        (chunk.length + 1 - sp) sp (le_refl _) hnone a ha.1
      simpa using this
    · rename_i j hsome
      rw [findFrom] at hsome
      obtain ⟨hij, hmatch⟩ := findFromGo_sound chunk tiffSigLE _ sp j hsome
      have hmin := findFromGo_min chunk tiffSigLE _ sp j hsome
      have hjb : j + 4 ≤ chunk.length := sig_match_bound hmatch
      have hsplit : chunk.length - sp = (chunk.length - j) + (j - sp) := by omega
      rw [hsplit, ← List.range'_append_1 sp (j - sp) (chunk.length - j), List.filter_append]
      have hfirst : (List.range' sp (j - sp)).filter
          (fun i => decide ((chunk.drop i).take 4 = tiffSigLE)) = [] := by
        rw [List.filter_eq_nil_iff]
        intro a ha
        rw [List.mem_range'_1] at ha
        have : a < j := by omega
        simpa using hmin a ha.1 this
      have hj : sp + (j - sp) = j := by omega
      have hlast : chunk.length - j = (chunk.length - (j + 1)) + 1 := by omega
      rw [hfirst, hj, hlast, List.range'_succ]
      have hmatch4 : (chunk.drop j).take 4 = tiffSigLE := by simpa using hmatch
      rw [List.filter_cons_of_pos (by simpa using hmatch4)]
      rw [List.nil_append]
      have hih := ih (j + 1) (by omega)
      rw [hih]

/-- Claim C6 counterexample: the multi-directory locator does not find
big-endian signatures.  Applied to a window that consists of exactly the
4-byte big-endian signature `0x4D 0x4D 0x00 0x2A`, it yields no
candidate directories, although `bytes.find` locates that signature at
position 0; `extract_metadata`'s collection loop searches only for the
little-endian signature. -/
theorem C6_counterexample :
    tiff_indices tiffSigBE = [] ∧ findFrom tiffSigBE tiffSigBE 0 = some 0 := by
  refine ⟨by decide, by decide⟩

/-- Claim C6, amended: inside the vendor metadata window, the
multi-directory locator finds exactly the positions of every occurrence
of the little-endian signature `0x49 0x49 0x2A 0x00` — the big-endian
signature is never searched for — and the resulting candidate list is
the position-ordered filter of the window's indices, so candidates are
ordered by position and numbered from zero by the enumeration that
consumes them. -/
theorem C6_theorem (chunk : List Nat) :
    tiff_indices chunk =
      (List.range chunk.length).filter
        (fun i => decide ((chunk.drop i).take 4 = tiffSigLE)) := by
  rw [tiff_indices, List.range_eq_range']
  have := collect_eq_filter chunk (chunk.length + 1) 0 (by omega)
  simpa using this

/-- Witness for `C6_theorem` at a concrete window holding two
little-endian signatures. -/
theorem C6_witness :
    tiff_indices ([0] ++ tiffSigLE ++ [9] ++ tiffSigLE) = [1, 6] :=
  (C6_theorem ([0] ++ tiffSigLE ++ [9] ++ tiffSigLE)).trans (by decide)

/-- Witness for `C8_theorem` at a concrete recursion budget. -/
theorem C8_witness :
    find_datetime_in_ifd c8_chain_file 0 .le (7 + 3) 8 = some [97, 98, 99, 100] :=
  C8_theorem.1 7
